import Mathlib

/-!
Verification of the Evergreen cluster configuration control plane
(admin settings validation, audit log, revert, event pagination, task
queues) and of the UI project-creation handler, against the repository
specification and source.

Machine integers in the source are modelled as Nat; timestamps as Nat
ticks; fallible operations return Except paired with the resulting
store state, so that "the store is left unmodified" is expressible.
-/

/-- Modelled from the spec: an ExecutionPool (ContainerPool) is
`(id, parentNodeGroup, capacity)`; the source (absent from src, seen in
its test admin_test.go) calls the node-group reference `Distro` and the
capacity `MaxContainers`. -/
structure ContainerPool where
  id : String
  distro : String
  maxContainers : Nat
deriving DecidableEq

/-- Modelled from the spec: a NodeGroup (Distro) is
`(id, assignedPoolId : optional string)`; the empty string plays the
role of "not a member of any container pool", matching the source
test's `distro.Distro` where the `ContainerPool` field is a plain
string defaulting to empty. -/
structure Distro where
  id : String
  containerPool : String
deriving DecidableEq

/-- Modelled from the spec: the UI section of the configuration; the
fields exercised by validation and the round-trip test are the HTTP
listener address and the CSRF signing key. -/
structure UIConfig where
  httpListenAddr : String
  csrfKey : String
deriving DecidableEq

/-- Modelled from the spec: the API section of the configuration
(listener address). -/
structure APIConfig where
  httpListenAddr : String
deriving DecidableEq

/-- Modelled from the spec: the single global Configuration document
(evergreen.Settings). Sections whose internal structure the control
plane never inspects (alerting, queue, auth providers, cloud providers,
scheduler, service flags, logging) are carried as opaque section
payloads; the fields validation reads (API hostname, CSRF key,
container pools) are explicit. -/
structure Configuration where
  apiUrl : String
  alerts : String
  amboy : String
  api : APIConfig
  authConfig : String
  containerPools : List ContainerPool
  hostInit : String
  jira : String
  loggerConfig : String
  notifyCfg : String
  providers : String
  repoTracker : String
  scheduler : String
  serviceFlags : String
  slack : String
  splunk : String
  superUsers : List String
  ui : UIConfig
deriving DecidableEq

/-- Validation message for a missing API hostname (spec 4.1 and test
admin_test.go line 143). -/
def apiHostnameMsg : String := "API hostname must not be empty"

/-- Validation message for a CSRF key of the wrong length (spec 4.1 and
test admin_test.go line 144). -/
def csrfKeyMsg : String := "CSRF key must be 32 characters long"

/-- Validation message for duplicated pool identifiers. The spec lists
pool-id uniqueness among the checks without fixing the wording. -/
def duplicatePoolMsg : String := "container pool ids must be unique"

/-- Validation message for a pool whose node group exists but is itself
a member of another pool (spec 4.1 and test admin_test.go line 173). -/
def invalidDistroMsg (poolId : String) : String :=
  "container pool " ++ poolId ++ " has invalid distro"

/-- Validation message for a pool whose node group cannot be resolved
at all (spec 4.1 and test admin_test.go line 174). -/
def missingDistroMsg (poolId : String) : String :=
  "error finding distro for container pool " ++ poolId

/-- Modelled from the spec: referential validation of one ExecutionPool
against the known NodeGroups. The referenced node group must exist
("error finding distro for container pool id" when it cannot be
resolved at all), and must not itself be a member of another pool
("container pool id has invalid distro"). -/
def validatePool (distros : List Distro) (p : ContainerPool) : List String :=
  match distros.find? (fun d => d.id == p.distro) with
  | none => [missingDistroMsg p.id]
  | some d =>
    if d.containerPool ≠ "" ∧ d.containerPool ≠ p.id then [invalidDistroMsg p.id]
    else []

/-- Modelled from the spec: the ConfigValidator. Pure; accumulates all
independently-checkable violations (never stops at the first): required
API hostname non-empty, CSRF key exactly 32 characters, pool-id
uniqueness, and referential integrity of every pool. An empty result
means the candidate is safe to commit. -/
def validate (distros : List Distro) (c : Configuration) : List String :=
  (if c.apiUrl = "" then [apiHostnameMsg] else []) ++
  (if c.ui.csrfKey.length = 32 then [] else [csrfKeyMsg]) ++
  (if (c.containerPools.map (fun p => p.id)).Nodup then [] else [duplicatePoolMsg]) ++
  (c.containerPools.map (validatePool distros)).flatten

/-- Modelled from the spec: aggregation of validation messages into the
single comma-joined message of the 400 response. -/
def joinMsgs : List String → String
  | [] => ""
  | [m] => m
  | m :: rest => m ++ ", " ++ joinMsgs rest

/-- Substring containment, stated on the underlying character data. -/
def strContains (hay needle : String) : Prop :=
  ∃ p q : List Char, hay.data = p ++ needle.data ++ q

theorem strContains_of_mem_joinMsgs {m : String} :
    ∀ {l : List String}, m ∈ l → strContains (joinMsgs l) m := by
  intro l
  induction l with
  | nil => intro h; cases h
  | cons a rest ih =>
    intro h
    rcases List.mem_cons.mp h with h | h
    · subst h
      cases rest with
      | nil => exact ⟨[], [], by simp [joinMsgs]⟩
      | cons b bs =>
        refine ⟨[], (", " ++ joinMsgs (b :: bs)).data, ?_⟩
        show ((m ++ ", ") ++ joinMsgs (b :: bs)).data = [] ++ m.data ++ (", " ++ joinMsgs (b :: bs)).data
        simp [String.data_append]
    · cases rest with
      | nil => cases h
      | cons b bs =>
        rcases ih h with ⟨p, q, hpq⟩
        refine ⟨(a ++ ", ").data ++ p, q, ?_⟩
        show ((a ++ ", ") ++ joinMsgs (b :: bs)).data = (a ++ ", ").data ++ p ++ m.data ++ q
        simp [String.data_append, hpq]

/-- Error taxonomy of the control plane (spec 7): validation failures,
missing records, and structurally malformed request input rejected at
parse time. -/
inductive AdminError where
  | invalidArgument : String → AdminError
  | notFound : String → AdminError
  | validationFailed : String → AdminError
deriving DecidableEq

/-- Modelled from the spec: an AuditRecord (AdminEvent): unique guid
generated at write time, timestamp, acting principal, and full
before/after Configuration snapshots. -/
structure AuditRecord where
  guid : String
  timestamp : Nat
  principal : String
  before : Configuration
  after : Configuration
deriving DecidableEq

/-- Modelled from the spec: the durable state shared by ConfigStore and
EventRecorder: the single live Configuration document, the audit log
(newest first), a counter from which fresh guids are generated, and a
clock supplying timestamps. -/
structure ControlPlaneState where
  live : Configuration
  log : List AuditRecord
  nextGuid : Nat
  clock : Nat
deriving DecidableEq

/-- Modelled from the spec: generation of a fresh unique audit-record
identifier. The spec fixes only that identifiers are freshly generated,
unique and non-empty; injectivity in the counter delivers uniqueness. -/
def genGuid (n : Nat) : String := String.mk (List.replicate (n + 1) 'g')

theorem genGuid_injective : Function.Injective genGuid := by
  intro m n h
  have hdata : List.replicate (m + 1) 'g' = List.replicate (n + 1) 'g' :=
    congrArg String.data h
  have hlen := congrArg List.length hdata
  simpa using hlen

theorem genGuid_ne_empty (n : Nat) : genGuid n ≠ "" := by
  intro h
  have hdata : List.replicate (n + 1) 'g' = ([] : List Char) := congrArg String.data h
  simp at hdata

/-- Modelled from the spec: the shared commit path (ConfigStore.set
success branch followed by the synchronous EventRecorder append): the
live document is replaced and an AuditRecord with a fresh guid and the
current timestamp is prepended to the log. -/
def commitChange (c : Configuration) (principal : String) (st : ControlPlaneState) :
    ControlPlaneState :=
  { live := c
    log := { guid := genGuid st.nextGuid
             timestamp := st.clock
             principal := principal
             before := st.live
             after := c } :: st.log
    nextGuid := st.nextGuid + 1
    clock := st.clock + 1 }

/-- Modelled from the spec: ConfigStore.get — the current live document,
never absent. -/
def getSettings (st : ControlPlaneState) : Configuration := st.live

/-- Modelled from the spec: ConfigStore.set (the POST /admin/settings
operation). Validation runs first; on any violation the aggregated
message is returned and the store is left unmodified; on success the
commit path runs and the prior document is returned. -/
def setSettings (distros : List Distro) (candidate : Configuration) (principal : String)
    (st : ControlPlaneState) : Except String Configuration × ControlPlaneState :=
  match validate distros candidate with
  | [] => (.ok st.live, commitChange candidate principal st)
  | e :: es => (.error (joinMsgs (e :: es)), st)

/-- Modelled from the spec: parse phase of the POST /admin/revert
route — an empty guid is rejected with InvalidArgument before the
RevertEngine is reached. -/
def parseRevertRequest (guid : String) : Except AdminError String :=
  if guid = "" then .error (.invalidArgument "guid is required") else .ok guid

/-- Modelled from the spec: the RevertEngine. The guid is resolved in
the audit log; the record's before snapshot is re-validated and, if
valid, committed through the same path as a normal edit, producing a
new AuditRecord; history is never deleted or mutated. -/
def revertEngine (distros : List Distro) (guid principal : String)
    (st : ControlPlaneState) : Except AdminError Unit × ControlPlaneState :=
  match st.log.find? (fun r => r.guid == guid) with
  | none => (.error (.notFound guid), st)
  | some r =>
    match validate distros r.before with
    | [] => (.ok (), commitChange r.before principal st)
    | e :: es => (.error (.validationFailed (joinMsgs (e :: es))), st)

/-- Modelled from the spec: the full POST /admin/revert route: parse,
then RevertEngine; a parse failure touches no storage. -/
def revertRoute (distros : List Distro) (guid principal : String)
    (st : ControlPlaneState) : Except AdminError Unit × ControlPlaneState :=
  match parseRevertRequest guid with
  | .error e => (.error e, st)
  | .ok g => revertEngine distros g principal st

/-- Modelled from the spec: EventPaginator eligibility — when a cursor
timestamp is supplied, only records strictly earlier than the cursor
are eligible, preventing re-delivery of the boundary record. -/
def eligibleEvents (log : List AuditRecord) (ts : Nat) : List AuditRecord :=
  log.filter (fun r => r.timestamp < ts)

/-- Modelled from the spec: EventPaginator.list — the eligible records
in descending timestamp order (the log is maintained newest first),
truncated to the requested limit. -/
def listEvents (log : List AuditRecord) (ts limit : Nat) : List AuditRecord :=
  (eligibleEvents log ts).take limit

/-- Modelled from the spec: the next cursor is the timestamp of the
last (oldest) record returned, when any record was returned. -/
def nextCursor (records : List AuditRecord) : Option Nat :=
  records.getLast?.map (fun r => r.timestamp)

/-- Modelled from the spec: the pagination metadata attached to an
events page — the query-parameter names for the cursor key and the
limit, the relation type, the key value, and the echoed limit. -/
structure PaginationPage where
  keyQueryParam : String
  limitQueryParam : String
  relation : String
  key : Nat
  limit : Nat
deriving DecidableEq

/-- Modelled from the spec: the response of GET /admin/events — the
page of audit records plus, when the page is non-empty, metadata that
lets a client construct the following request without out-of-band
knowledge. -/
structure EventsResponse where
  records : List AuditRecord
  pages : Option PaginationPage
deriving DecidableEq

/-- Modelled from the spec: the GET /admin/events route: list a page
and attach the pagination metadata built from the next cursor. -/
def fetchAdminEvents (log : List AuditRecord) (ts limit : Nat) : EventsResponse :=
  let recs := listEvents log ts limit
  { records := recs
    pages := recs.getLast?.map (fun r =>
      { keyQueryParam := "ts"
        limitQueryParam := "limit"
        relation := "next"
        key := r.timestamp
        limit := limit }) }

/-- A queue item of a dispatch queue (model.TaskQueueItem); only the
identifier is inspected by the control plane. -/
structure TaskQueueItem where
  id : String
deriving DecidableEq

/-- A per-node-group dispatch queue document (model.TaskQueue). -/
structure TaskQueue where
  distro : String
  queue : List TaskQueueItem
deriving DecidableEq

/-- Modelled from the spec: ExecutionQueueStore.save — wholesale
replacement of the queue document for one node group (not an
item-by-item merge). -/
def saveQueue (store : List TaskQueue) (g : String) (items : List TaskQueueItem) :
    List TaskQueue :=
  { distro := g, queue := items } :: store.filter (fun q => !(q.distro == g))

/-- Modelled from the spec: ExecutionQueueStore.load — the ordered
items for one node group; the empty sequence (not an error) when no
queue document exists for that identifier. -/
def loadTaskQueue (store : List TaskQueue) (g : String) : List TaskQueueItem :=
  match store.find? (fun q => q.distro == g) with
  | none => []
  | some q => q.queue

/-- Modelled from the spec: ExecutionQueueStore.clear, the
administrative clear-queue route — equivalent to saving the empty
sequence; total, so clearing an empty or missing queue succeeds. -/
def clearQueue (store : List TaskQueue) (g : String) : List TaskQueue :=
  saveQueue store g []

/-- A restart request: the time window and the dry-run flag, as in the
POST /admin/restart body. -/
structure RestartRequest where
  startTime : Nat
  endTime : Nat
  dryRun : Bool
deriving DecidableEq

/-- Modelled from the spec: parse phase of POST /admin/restart — a
window whose end time is before its start time is structurally
malformed and rejected with InvalidArgument before any storage
access. -/
def parseRestartRequest (startTime endTime : Nat) (dryRun : Bool) :
    Except AdminError RestartRequest :=
  if endTime < startTime then
    .error (.invalidArgument "end time cannot be before start time")
  else
    .ok { startTime := startTime, endTime := endTime, dryRun := dryRun }

/-- The response of a restart run: the identifiers of the tasks that
were restarted. -/
structure RestartTasksResponse where
  tasksRestarted : List String
deriving DecidableEq

/-- Modelled from the spec: the POST /admin/restart route over a store
of (task id, completion time) pairs: parse, and on success restart the
tasks that completed inside the window; a parse failure touches no
storage. -/
def restartRoute (startTime endTime : Nat) (dryRun : Bool)
    (tasks : List (String × Nat)) :
    Except AdminError RestartTasksResponse × List (String × Nat) :=
  match parseRestartRequest startTime endTime dryRun with
  | .error e => (.error e, tasks)
  | .ok req =>
    (.ok { tasksRestarted :=
            (tasks.filter (fun t => req.startTime ≤ t.2 && t.2 ≤ req.endTime)).map
              (fun t => t.1) },
     tasks)

/-- A project record (model.ProjectRef), with the fields
UIServer.addProject populates. -/
structure ProjectRef where
  identifier : String
  enabled : Bool
  tracked : Bool
  repoKind : String
deriving DecidableEq

/-- Per-project variables (model.ProjectVars), keyed by the project
identifier. -/
structure ProjectVars where
  id : String
deriving DecidableEq

/-- The project store the UI server reads and writes: the project
records and the project-variables documents. -/
structure ProjectDB where
  projects : List ProjectRef
  projectVars : List ProjectVars
deriving DecidableEq

/-- model.FindOneProjectRef: the project record with the given
identifier, if any. -/
def findOneProjectRef (db : ProjectDB) (id : String) : Option ProjectRef :=
  db.projects.find? (fun p => p.identifier == id)

/-- The UIServer.addProject handler (src/unnamed/part_000 lines
299-354): if a project with the identifier already exists the request
fails with "Project already exists" and nothing is inserted; otherwise
a new enabled, tracked, github-kind ProjectRef is inserted, followed by
a new ProjectVars document with the same identifier. -/
def addProject (db : ProjectDB) (id : String) : Except String Unit × ProjectDB :=
  match findOneProjectRef db id with
  | some _ => (.error "Project already exists", db)
  | none =>
    let newProject : ProjectRef :=
      { identifier := id, enabled := true, tracked := true, repoKind := "github" }
    let newProjectVars : ProjectVars := { id := id }
    (.ok (), { projects := db.projects ++ [newProject]
               projectVars := db.projectVars ++ [newProjectVars] })

/-- A 32-character CSRF signing key, as the validator requires. -/
def mockCsrfKey : String := "abcdefghabcdefghabcdefghabcdefgh"

/-- Concrete node groups mirroring the two distros the admin route test
inserts: one unassigned, one that is itself a member of a container
pool. -/
def mockDistros : List Distro :=
  [{ id := "valid-distro", containerPool := "" },
   { id := "invalid-distro", containerPool := "test-pool-1" }]

/-- A concrete valid Configuration mirroring testutil.MockConfig: every
section populated, a non-empty API hostname, a 32-character CSRF key,
and one container pool referencing the unassigned distro. -/
def mockConfig : Configuration :=
  { apiUrl := "http://apihost.example.net"
    alerts := "alerts-section"
    amboy := "amboy-section"
    api := { httpListenAddr := ":8080" }
    authConfig := "auth-section"
    containerPools := [{ id := "test-pool-1", distro := "valid-distro", maxContainers := 100 }]
    hostInit := "hostinit-section"
    jira := "jira-section"
    loggerConfig := "logger-section"
    notifyCfg := "notify-section"
    providers := "providers-section"
    repoTracker := "repotracker-section"
    scheduler := "scheduler-section"
    serviceFlags := "flags-section"
    slack := "slack-section"
    splunk := "splunk-section"
    superUsers := ["root-user"]
    ui := { httpListenAddr := ":9090", csrfKey := mockCsrfKey } }

/-- The control-plane state before any audited change: a default live
document, an empty audit log, and fresh counters. -/
def initState : ControlPlaneState :=
  { live := mockConfig, log := [], nextGuid := 0, clock := 0 }

theorem invalidDistroMsg_ne_missingDistroMsg (a b : String) :
    invalidDistroMsg a ≠ missingDistroMsg b := by
  intro h
  have hh : (some 'c' : Option Char) = some 'e' := congrArg (fun s => s.data.head?) h
  exact absurd (Option.some.inj hh) (by decide)

/-- Claim C1: for every valid Configuration, committing it through the
settings-set operation succeeds, returns the prior document, and a
subsequent settings-get returns a document equal to the committed one
in every field. -/
theorem settings_set_get_roundtrip (distros : List Distro) (c : Configuration)
    (p : String) (st : ControlPlaneState) (h : validate distros c = []) :
    (setSettings distros c p st).1 = Except.ok st.live ∧
    getSettings (setSettings distros c p st).2 = c := by
  simp [setSettings, h, getSettings, commitChange]

/-- Witness for C1: the mock configuration validates against the mock
distros and round-trips through set and get. -/
theorem settings_set_get_roundtrip_witness :
    validate mockDistros mockConfig = [] ∧
    ((setSettings mockDistros mockConfig "user" initState).1 = Except.ok initState.live ∧
     getSettings (setSettings mockDistros mockConfig "user" initState).2 = mockConfig) :=
  ⟨by decide, settings_set_get_roundtrip mockDistros mockConfig "user" initState (by decide)⟩

/-- Claim C4: a candidate missing the API hostname and carrying a
5-character CSRF key is rejected with a single aggregated failure whose
message contains both the API-hostname message and the CSRF-key
message, and the store is left unmodified. -/
theorem validation_aggregates_all_failures (distros : List Distro) (c : Configuration)
    (p : String) (st : ControlPlaneState)
    (hApi : c.apiUrl = "") (hCsrf : c.ui.csrfKey.length = 5) :
    ∃ m, setSettings distros c p st = (Except.error m, st) ∧
      strContains m apiHostnameMsg ∧ strContains m csrfKeyMsg := by
  have hmem1 : apiHostnameMsg ∈ validate distros c := by
    simp [validate, hApi]
  have hmem2 : csrfKeyMsg ∈ validate distros c := by
    simp [validate, hApi, hCsrf]
  cases hveq : validate distros c with
  | nil => rw [hveq] at hmem1; cases hmem1
  | cons e es =>
    rw [hveq] at hmem1 hmem2
    exact ⟨joinMsgs (e :: es), by simp [setSettings, hveq],
      strContains_of_mem_joinMsgs hmem1, strContains_of_mem_joinMsgs hmem2⟩

/-- The invalid candidate of the aggregation test: no API hostname and
the 5-character CSRF key. -/
def badConfigOne : Configuration :=
  { mockConfig with apiUrl := "", ui := { httpListenAddr := ":9090", csrfKey := "12345" } }

/-- Witness for C4: the concrete bad candidate is rejected with one
message containing both violations, leaving the store untouched. -/
theorem validation_aggregates_all_failures_witness :
    (badConfigOne.apiUrl = "" ∧ badConfigOne.ui.csrfKey.length = 5) ∧
    (∃ m, setSettings mockDistros badConfigOne "user" initState = (Except.error m, initState) ∧
      strContains m apiHostnameMsg ∧ strContains m csrfKeyMsg) :=
  ⟨⟨by decide, by decide⟩,
   validation_aggregates_all_failures mockDistros badConfigOne "user" initState
     (by decide) (by decide)⟩

/-- Claim C3: for a pool set of P1 referencing an existing unassigned
distro, P2 referencing a distro that is itself a member of another
container pool, and P3 referencing a distro that does not exist,
validation yields exactly the invalid-distro error for P2 and the
missing-distro error for P3 (so no error for P1), and the two failure
messages are distinct. -/
theorem pool_validation_distinguishes_failure_kinds (distros : List Distro)
    (c : Configuration) (d1 d2 : Distro) (P1 P2 P3 : ContainerPool)
    (hpools : c.containerPools = [P1, P2, P3])
    (hApi : c.apiUrl ≠ "")
    (hCsrf : c.ui.csrfKey.length = 32)
    (hids : ([P1.id, P2.id, P3.id] : List String).Nodup)
    (h1 : distros.find? (fun d => d.id == P1.distro) = some d1)
    (h1p : d1.containerPool = "")
    (h2 : distros.find? (fun d => d.id == P2.distro) = some d2)
    (h2p : d2.containerPool ≠ "")
    (h2q : d2.containerPool ≠ P2.id)
    (h3 : distros.find? (fun d => d.id == P3.distro) = none) :
    validate distros c = [invalidDistroMsg P2.id, missingDistroMsg P3.id] ∧
    invalidDistroMsg P2.id ≠ missingDistroMsg P3.id := by
  constructor
  · simp [validate, hpools, hApi, hCsrf, hids, validatePool, h1, h1p, h2, h2p, h2q, h3]
  · exact invalidDistroMsg_ne_missingDistroMsg _ _

/-- The candidate of the referential-validation test: three pools
referencing the valid, the pool-assigned, and a missing distro. -/
def badConfigTwo : Configuration :=
  { mockConfig with containerPools :=
      [{ id := "test-pool-1", distro := "valid-distro", maxContainers := 100 },
       { id := "test-pool-2", distro := "invalid-distro", maxContainers := 100 },
       { id := "test-pool-3", distro := "missing-distro", maxContainers := 100 }] }

/-- Witness for C3: on the concrete three-pool candidate against the
mock distros, validation returns exactly the two expected distinct
messages. -/
theorem pool_validation_distinguishes_failure_kinds_witness :
    (badConfigTwo.containerPools =
      [{ id := "test-pool-1", distro := "valid-distro", maxContainers := 100 },
       { id := "test-pool-2", distro := "invalid-distro", maxContainers := 100 },
       { id := "test-pool-3", distro := "missing-distro", maxContainers := 100 }] ∧
     mockDistros.find? (fun d => d.id == "valid-distro") =
       some { id := "valid-distro", containerPool := "" } ∧
     mockDistros.find? (fun d => d.id == "invalid-distro") =
       some { id := "invalid-distro", containerPool := "test-pool-1" } ∧
     mockDistros.find? (fun d => d.id == "missing-distro") = none) ∧
    (validate mockDistros badConfigTwo =
       [invalidDistroMsg "test-pool-2", missingDistroMsg "test-pool-3"] ∧
     invalidDistroMsg "test-pool-2" ≠ missingDistroMsg "test-pool-3") :=
  ⟨⟨by decide, by decide, by decide, by decide⟩,
   pool_validation_distinguishes_failure_kinds mockDistros badConfigTwo
     { id := "valid-distro", containerPool := "" }
     { id := "invalid-distro", containerPool := "test-pool-1" }
     { id := "test-pool-1", distro := "valid-distro", maxContainers := 100 }
     { id := "test-pool-2", distro := "invalid-distro", maxContainers := 100 }
     { id := "test-pool-3", distro := "missing-distro", maxContainers := 100 }
     (by decide) (by decide) (by decide) (by decide) (by decide) (by decide)
     (by decide) (by decide) (by decide) (by decide)⟩

/-- Claim C2: committing change A (producing an audit record), then
change B, then reverting to the record of A succeeds and yields a live
configuration equal to the state immediately before A was applied; a
new audit record is created whose after snapshot equals the restored
state, and the prior log is preserved intact as the tail (no record is
deleted or mutated). -/
theorem revert_reconstructs_prior_state (distros : List Distro) (A B : Configuration)
    (p1 p2 p3 : String) (st0 : ControlPlaneState) (r1 : AuditRecord)
    (hA : validate distros A = []) (hB : validate distros B = [])
    (hPre : validate distros st0.live = [])
    (hr1 : ((setSettings distros A p1 st0).2).log.head? = some r1) :
    ∃ rNew : AuditRecord,
      (revertRoute distros r1.guid p3
          ((setSettings distros B p2 (setSettings distros A p1 st0).2).2)).1 =
        Except.ok () ∧
      (revertRoute distros r1.guid p3
          ((setSettings distros B p2 (setSettings distros A p1 st0).2).2)).2.live =
        st0.live ∧
      (revertRoute distros r1.guid p3
          ((setSettings distros B p2 (setSettings distros A p1 st0).2).2)).2.log =
        rNew :: ((setSettings distros B p2 (setSettings distros A p1 st0).2).2).log ∧
      rNew.after = st0.live := by
  have e1 : (setSettings distros A p1 st0).2 = commitChange A p1 st0 := by
    simp [setSettings, hA]
  rw [e1] at hr1 ⊢
  have hr1' : r1 =
      { guid := genGuid st0.nextGuid
        timestamp := st0.clock
        principal := p1
        before := st0.live
        after := A } := by
    simpa [commitChange] using hr1.symm
  have e2 : (setSettings distros B p2 (commitChange A p1 st0)).2 =
      commitChange B p2 (commitChange A p1 st0) := by
    simp [setSettings, hB]
  rw [e2]
  have hguid_ne : ((genGuid (st0.nextGuid + 1)) == genGuid st0.nextGuid) = false := by
    rw [beq_eq_false_iff_ne]
    intro h
    exact absurd (genGuid_injective h) (by simp)
  refine ⟨{ guid := genGuid (commitChange B p2 (commitChange A p1 st0)).nextGuid
            timestamp := (commitChange B p2 (commitChange A p1 st0)).clock
            principal := p3
            before := B
            after := st0.live }, ?_, ?_, ?_, ?_⟩
  all_goals
    simp [revertRoute, parseRevertRequest, hr1', genGuid_ne_empty, revertEngine,
      commitChange, hguid_ne, hPre]

/-- Change A of the revert scenario: the mock configuration with a
different super-user list. -/
def configA : Configuration := { mockConfig with superUsers := ["me"] }

/-- Change B of the revert scenario. -/
def configB : Configuration := { mockConfig with superUsers := ["you"] }

/-- Witness for C2: in the concrete commit A, commit B, revert sequence
from the initial state, revert restores the initial live document and
appends a fresh record. -/
theorem revert_reconstructs_prior_state_witness :
    (validate mockDistros configA = [] ∧ validate mockDistros configB = [] ∧
     validate mockDistros initState.live = [] ∧
     ((setSettings mockDistros configA "p1" initState).2).log.head? =
       some { guid := genGuid 0
              timestamp := 0
              principal := "p1"
              before := mockConfig
              after := configA }) ∧
    (∃ rNew : AuditRecord,
      (revertRoute mockDistros
          (AuditRecord.guid { guid := genGuid 0
                              timestamp := 0
                              principal := "p1"
                              before := mockConfig
                              after := configA }) "p3"
          ((setSettings mockDistros configB "p2"
            (setSettings mockDistros configA "p1" initState).2).2)).1 =
        Except.ok () ∧
      (revertRoute mockDistros
          (AuditRecord.guid { guid := genGuid 0
                              timestamp := 0
                              principal := "p1"
                              before := mockConfig
                              after := configA }) "p3"
          ((setSettings mockDistros configB "p2"
            (setSettings mockDistros configA "p1" initState).2).2)).2.live =
        initState.live ∧
      (revertRoute mockDistros
          (AuditRecord.guid { guid := genGuid 0
                              timestamp := 0
                              principal := "p1"
                              before := mockConfig
                              after := configA }) "p3"
          ((setSettings mockDistros configB "p2"
            (setSettings mockDistros configA "p1" initState).2).2)).2.log =
        rNew :: ((setSettings mockDistros configB "p2"
            (setSettings mockDistros configA "p1" initState).2).2).log ∧
      rNew.after = initState.live) :=
  ⟨⟨by decide, by decide, by decide, by decide⟩,
   revert_reconstructs_prior_state mockDistros configA configB "p1" "p2" "p3" initState
     { guid := genGuid 0
       timestamp := 0
       principal := "p1"
       before := mockConfig
       after := configA }
     (by decide) (by decide) (by decide) (by decide)⟩

/-- Claim C5: whenever at least limit audit records are eligible for a
cursor timestamp, the listing returns exactly limit records, in
strictly descending timestamp order, all strictly earlier than the
cursor, and the next cursor equals the timestamp of the last (oldest)
record returned. -/
theorem pagination_exactness (log : List AuditRecord) (ts limit : Nat)
    (hsort : List.Pairwise (fun a b => b.timestamp < a.timestamp) log)
    (hpos : 0 < limit)
    (hlim : limit ≤ (eligibleEvents log ts).length) :
    (listEvents log ts limit).length = limit ∧
    List.Pairwise (fun a b => b.timestamp < a.timestamp) (listEvents log ts limit) ∧
    (∀ r ∈ listEvents log ts limit, r.timestamp < ts) ∧
    ∃ last, (listEvents log ts limit).getLast? = some last ∧
      nextCursor (listEvents log ts limit) = some last.timestamp := by
  have hlen : (listEvents log ts limit).length = limit := by
    simp [listEvents, Nat.min_eq_left hlim]
  refine ⟨hlen, ?_, ?_, ?_⟩
  · exact List.Pairwise.sublist (List.take_sublist _ _) (hsort.filter _)
  · intro r hr
    have hr' := List.mem_of_mem_take hr
    have := (List.mem_filter.mp hr').2
    simpa using this
  · have hne : listEvents log ts limit ≠ [] := by
      intro h
      rw [h] at hlen
      simp at hlen
      omega
    rcases List.getLast?_eq_getLast _ hne with hsome
    exact ⟨_, hsome, by simp [nextCursor, hsome]⟩

/-- An audit record at clock tick 1. -/
def recTickOne : AuditRecord :=
  { guid := genGuid 1
    timestamp := 1
    principal := "user"
    before := mockConfig
    after := configA }

/-- An audit record at clock tick 0. -/
def recTickZero : AuditRecord :=
  { guid := genGuid 0
    timestamp := 0
    principal := "user"
    before := mockConfig
    after := mockConfig }

/-- Witness for C5: on a concrete two-record log with cursor 5 and
limit 2, the page has exactly 2 strictly descending records and the
next cursor is the older timestamp. -/
theorem pagination_exactness_witness :
    (List.Pairwise (fun a b => b.timestamp < a.timestamp) [recTickOne, recTickZero] ∧
     0 < 2 ∧ 2 ≤ (eligibleEvents [recTickOne, recTickZero] 5).length) ∧
    ((listEvents [recTickOne, recTickZero] 5 2).length = 2 ∧
     List.Pairwise (fun a b => b.timestamp < a.timestamp)
       (listEvents [recTickOne, recTickZero] 5 2) ∧
     (∀ r ∈ listEvents [recTickOne, recTickZero] 5 2, r.timestamp < 5) ∧
     ∃ last, (listEvents [recTickOne, recTickZero] 5 2).getLast? = some last ∧
       nextCursor (listEvents [recTickOne, recTickZero] 5 2) = some last.timestamp) :=
  ⟨⟨by decide, by decide, by decide⟩,
   pagination_exactness [recTickOne, recTickZero] 5 2 (by decide) (by decide) (by decide)⟩

/-- Claim C6: every pagination metadata attached to an events page
names the cursor query parameter "ts" and the limit query parameter
"limit", carries the relation "next", and echoes the requested
limit. -/
theorem pagination_metadata_shape (log : List AuditRecord) (ts limit : Nat)
    (page : PaginationPage)
    (h : (fetchAdminEvents log ts limit).pages = some page) :
    page.keyQueryParam = "ts" ∧ page.limitQueryParam = "limit" ∧
    page.relation = "next" ∧ page.limit = limit := by
  simp [fetchAdminEvents] at h
  rcases h with ⟨r, hr, hpage⟩
  rw [← hpage]
  exact ⟨rfl, rfl, rfl, rfl⟩

/-- Witness for C6: the concrete page of the two-record log carries the
expected parameter names, relation, and echoed limit. -/
theorem pagination_metadata_shape_witness :
    (fetchAdminEvents [recTickOne, recTickZero] 5 10).pages =
      some { keyQueryParam := "ts"
             limitQueryParam := "limit"
             relation := "next"
             key := 0
             limit := 10 } ∧
    ({ keyQueryParam := "ts"
       limitQueryParam := "limit"
       relation := "next"
       key := 0
       limit := 10 : PaginationPage }.keyQueryParam = "ts" ∧
     ({ keyQueryParam := "ts"
        limitQueryParam := "limit"
        relation := "next"
        key := 0
        limit := 10 : PaginationPage }.limitQueryParam = "limit") ∧
     ({ keyQueryParam := "ts"
        limitQueryParam := "limit"
        relation := "next"
        key := 0
        limit := 10 : PaginationPage }.relation = "next") ∧
     ({ keyQueryParam := "ts"
        limitQueryParam := "limit"
        relation := "next"
        key := 0
        limit := 10 : PaginationPage }.limit = 10)) :=
  ⟨by decide,
   pagination_metadata_shape [recTickOne, recTickZero] 5 10
     { keyQueryParam := "ts"
       limitQueryParam := "limit"
       relation := "next"
       key := 0
       limit := 10 }
     (by decide)⟩

/-- Claim C7: after saving three items for a node group, the
administrative clear followed by load returns the empty sequence; clear
is idempotent, and clear is exactly saving the empty sequence (so it
also succeeds on an empty or missing queue). -/
theorem queue_clear_idempotent_total (store : List TaskQueue) (g : String)
    (i1 i2 i3 : TaskQueueItem) :
    loadTaskQueue (clearQueue (saveQueue store g [i1, i2, i3]) g) g = [] ∧
    clearQueue (clearQueue store g) g = clearQueue store g ∧
    clearQueue store g = saveQueue store g [] := by
  refine ⟨?_, ?_, rfl⟩
  · simp [loadTaskQueue, clearQueue, saveQueue, List.find?]
  · simp [clearQueue, saveQueue, List.filter_filter]

/-- Claim C8: a revert request with an empty guid fails at parse time
with InvalidArgument, and the full route performs no storage mutation
(the state is returned unchanged). -/
theorem revert_empty_guid_rejected_at_parse (distros : List Distro) (p : String)
    (st : ControlPlaneState) :
    parseRevertRequest "" = Except.error (AdminError.invalidArgument "guid is required") ∧
    revertRoute distros "" p st =
      (Except.error (AdminError.invalidArgument "guid is required"), st) :=
  ⟨rfl, rfl⟩

/-- Claim C9: a restart request whose end time is before its start time
is rejected at parse time with InvalidArgument and the task store is
untouched; a request with start time before end time is accepted and
proceeds to run. -/
theorem restart_window_validated_at_parse (s e : Nat) (d : Bool)
    (tasks : List (String × Nat)) :
    (e < s → restartRoute s e d tasks =
      (Except.error (AdminError.invalidArgument "end time cannot be before start time"),
       tasks)) ∧
    (s < e → ∃ resp, restartRoute s e d tasks = (Except.ok resp, tasks)) := by
  constructor
  · intro h
    simp [restartRoute, parseRestartRequest, h]
  · intro h
    have hne : ¬ e < s := Nat.lt_asymm h
    simp [restartRoute, parseRestartRequest, hne]

/-- Witness for C9: with the window reversed the route rejects at parse
time leaving the store unchanged; with the window ordered it runs. -/
theorem restart_window_validated_at_parse_witness :
    (restartRoute 2 1 false [("t1", 1)] =
      (Except.error (AdminError.invalidArgument "end time cannot be before start time"),
       [("t1", 1)])) ∧
    (∃ resp, restartRoute 1 2 false [("t1", 1)] = (Except.ok resp, [("t1", 1)])) :=
  ⟨(restart_window_validated_at_parse 2 1 false [("t1", 1)]).1 (by decide),
   (restart_window_validated_at_parse 1 2 false [("t1", 1)]).2 (by decide)⟩

/-- Claim C10: an add-project request whose identifier already resolves
to an existing project returns an error and inserts nothing; when no
record with that identifier exists, exactly one new project record and
one new project-variables document are inserted, and identifier
uniqueness is preserved. -/
theorem addProject_keeps_identifiers_unique (db : ProjectDB) (id : String) :
    (∀ p, findOneProjectRef db id = some p →
       addProject db id = (Except.error "Project already exists", db)) ∧
    (findOneProjectRef db id = none →
       (addProject db id).1 = Except.ok () ∧
       (addProject db id).2.projects = db.projects ++
         [{ identifier := id, enabled := true, tracked := true, repoKind := "github" }] ∧
       (addProject db id).2.projectVars = db.projectVars ++ [{ id := id }] ∧
       ((db.projects.map (fun p => p.identifier)).Nodup →
         (((addProject db id).2.projects.map (fun p => p.identifier)).Nodup))) := by
  constructor
  · intro p hp
    simp [addProject, hp]
  · intro hnone
    have hnotmem : ∀ p ∈ db.projects, p.identifier ≠ id := by
      intro p hp
      have := List.find?_eq_none.mp hnone p hp
      simpa using this
    refine ⟨by simp [addProject, hnone], by simp [addProject, hnone],
      by simp [addProject, hnone], ?_⟩
    intro hnodup
    simp [addProject, hnone, List.nodup_append]
    refine ⟨hnodup, ?_⟩
    intro p hp hpid
    exact absurd hpid (hnotmem p hp)

/-- A project store holding one project named alpha. -/
def projectDBAlpha : ProjectDB :=
  { projects := [{ identifier := "alpha", enabled := true, tracked := true, repoKind := "github" }]
    projectVars := [{ id := "alpha" }] }

/-- Witness for C10: adding alpha again fails and leaves the store
unchanged; adding beta inserts the new record and variables and keeps
identifiers unique. -/
theorem addProject_keeps_identifiers_unique_witness :
    (findOneProjectRef projectDBAlpha "alpha" =
       some { identifier := "alpha", enabled := true, tracked := true, repoKind := "github" } ∧
     findOneProjectRef projectDBAlpha "beta" = none) ∧
    (addProject projectDBAlpha "alpha" = (Except.error "Project already exists", projectDBAlpha)) ∧
    ((addProject projectDBAlpha "beta").1 = Except.ok () ∧
     (addProject projectDBAlpha "beta").2.projects = projectDBAlpha.projects ++
       [{ identifier := "beta", enabled := true, tracked := true, repoKind := "github" }] ∧
     (addProject projectDBAlpha "beta").2.projectVars =
       projectDBAlpha.projectVars ++ [{ id := "beta" }] ∧
     ((projectDBAlpha.projects.map (fun p => p.identifier)).Nodup →
       (((addProject projectDBAlpha "beta").2.projects.map (fun p => p.identifier)).Nodup))) :=
  ⟨⟨by decide, by decide⟩,
   (addProject_keeps_identifiers_unique projectDBAlpha "alpha").1
     { identifier := "alpha", enabled := true, tracked := true, repoKind := "github" }
     (by decide),
   (addProject_keeps_identifiers_unique projectDBAlpha "beta").2 (by decide)⟩
